import Mathlib

/-!
Shallow embedding of `src/receipt_processor/__init__.py` (an Azure-Functions
blob-trigger that analyzes receipt images and persists a normalized record).

Modelling conventions:
* Python floats are modelled as exact rationals (`Rat`).
* A Python attribute that can be `None` (or a dict key that can be absent) is
  an `Option`.  A dict whose key may be present *with value `None`* is an
  `Option (Option _)`: the outer layer is key presence, the inner the value.
* The external services (PyMySQL, Document Intelligence, Cosmos DB) are
  oracles: their behaviour for the one invocation under study is a parameter
  of the model (`MySQLOutcome`, `AnalysisOutcome`, `CosmosOutcome`), and the
  handler records which external calls it attempted in a `Trace`.
-/

-- Batteries marks the rational operations irreducible, which blocks `decide`
-- on concrete receipts; restore default reducibility for this development.
attribute [local semireducible] Rat.mul Rat.inv Rat.add Rat.sub Rat.ofScientific

namespace ReceiptProcessor

/-- Scalar values a `DocumentField` can resolve to (strings or numbers). -/
inductive Scalar where
  | str (s : String)
  | num (q : Rat)
deriving DecidableEq, Repr

/-- Model of `datetime.date` (only what `strftime('%Y-%m-%d')` consumes). -/
structure DateV where
  year : Nat
  month : Nat
  day : Nat
deriving DecidableEq, Repr

/-- Model of `datetime.time` (only what `strftime('%H:%M:%S')` consumes). -/
structure TimeV where
  hour : Nat
  minute : Nat
  second : Nat
deriving DecidableEq, Repr

/-- Model of the SDK currency value: an object with an optional `amount`. -/
structure CurrencyV where
  amount : Option Rat
deriving DecidableEq, Repr

/-- Zero-pad a natural number to two digits (Python `%H`, `%M`, `%S`, `%m`, `%d`). -/
def pad2 (n : Nat) : String :=
  if n < 10 then "0" ++ toString n else toString n

/-- Zero-pad a natural number to four digits (Python `%Y`). -/
def pad4 (n : Nat) : String :=
  if n < 10 then "000" ++ toString n
  else if n < 100 then "00" ++ toString n
  else if n < 1000 then "0" ++ toString n
  else toString n

/-- `value_date.strftime('%Y-%m-%d')`. -/
def formatDate (d : DateV) : String :=
  pad4 d.year ++ "-" ++ pad2 d.month ++ "-" ++ pad2 d.day

/-- `value_time.strftime('%H:%M:%S')`. -/
def formatTime (t : TimeV) : String :=
  pad2 t.hour ++ ":" ++ pad2 t.minute ++ ":" ++ pad2 t.second

/-- The scalar-bearing attributes of an SDK `DocumentField`, as read by
`get_field_value` / `get_field_confidence`.  `hasattr(f, a) and f.a is not
None` is modelled by the `Option` being `some`. -/
structure DocumentField where
  value_string : Option String := none
  value_number : Option Rat := none
  value_date : Option DateV := none
  value_time : Option TimeV := none
  value_currency : Option CurrencyV := none
  value : Option Scalar := none
  confidence : Option Rat := none
deriving DecidableEq, Repr

/-- An entry of the `Items` array: the handler only reads its `value_object`,
a dict from sub-field names to `DocumentField`s.  Python truthiness of
`item_doc_field.value_object` (non-`None` *and* non-empty) is checked at use
sites. -/
structure ItemField where
  value_object : Option (List (String × DocumentField)) := none
deriving DecidableEq, Repr

/-- A top-level named field of a document: a `DocumentField` plus the
`value_array` attribute read for `Items`. -/
structure TopDocumentField extends DocumentField where
  value_array : Option (List ItemField) := none
deriving DecidableEq, Repr

/-- One document of the analysis result: `doc.fields`, a dict from field
names to fields. -/
structure Document where
  fields : List (String × TopDocumentField)
deriving DecidableEq, Repr

/-- `get_field_value(field)`: first populated variant wins, in source order
`value_string`, `value_number`, `value_date` (formatted `%Y-%m-%d`),
`value_time` (formatted `%H:%M:%S`), `value_currency.amount`, then the
generic `value`; `None` for a `None` field or when nothing is populated.
Note the currency step returns only when the `amount` inside is non-`None`;
otherwise it falls through to `value`. -/
def get_field_value : Option DocumentField → Option Scalar
  | none => none
  | some f =>
    match f.value_string with
    | some s => some (.str s)
    | none =>
      match f.value_number with
      | some n => some (.num n)
      | none =>
        match f.value_date with
        | some d => some (.str (formatDate d))
        | none =>
          match f.value_time with
          | some t => some (.str (formatTime t))
          | none =>
            match f.value_currency with
            | some c =>
              match c.amount with
              | some a => some (.num a)
              | none => f.value
            | none => f.value

/-- `get_field_confidence(field)`: the field's `confidence` attribute, or
`None` for a `None` field. -/
def get_field_confidence : Option DocumentField → Option Rat
  | none => none
  | some f => f.confidence

/-- The per-item dict `item_data`: keys `description`, `quantity`,
`totalPrice`, `unitPrice`, each set (possibly to `None`) exactly when the
corresponding sub-field name is present in the entry's `value_object`. -/
structure LineItem where
  description : Option (Option Scalar) := none
  quantity : Option (Option Scalar) := none
  totalPrice : Option (Option Scalar) := none
  unitPrice : Option (Option Scalar) := none
deriving DecidableEq, Repr

/-- Python truthiness of the dict `item_data`: empty iff no key was ever set. -/
def lineItemEmpty (it : LineItem) : Bool :=
  it.description.isNone && it.quantity.isNone &&
    it.totalPrice.isNone && it.unitPrice.isNone

/-- Turn an optional confidence into the list of confidences it contributes
(`if confidence is not None: item_confidences.append(confidence)`). -/
def confContrib : Option Rat → List Rat
  | some c => [c]
  | none => []

/-- One `if "Key" in item_doc_field.value_object:` block of the item loop:
returns the `item_data` entry (outer `Option` = key presence) and the
confidences appended. -/
def subRead (obj : List (String × DocumentField)) (key : String) :
    Option (Option Scalar) × List Rat :=
  match obj.lookup key with
  | some f => (some (get_field_value (some f)), confContrib (get_field_confidence (some f)))
  | none => (none, [])

/-- The body of the `for item_doc_field in items_field.value_array:` loop for
one entry: `none` in the first component when the entry contributes no
`LineItem` (object payload missing/empty, or `item_data` stayed empty). -/
def processEntry (e : ItemField) : Option LineItem × List Rat :=
  match e.value_object with
  | none => (none, [])
  | some obj =>
    if obj.isEmpty then (none, [])
    else
      let d := subRead obj "Description"
      let q := subRead obj "Quantity"
      let t := subRead obj "TotalPrice"
      let u := subRead obj "UnitPrice"
      let item : LineItem := ⟨d.1, q.1, t.1, u.1⟩
      let confs := d.2 ++ q.2 ++ t.2 ++ u.2
      if lineItemEmpty item then (none, confs) else (some item, confs)

/-- The whole item loop: the `extracted_items` list and the
`item_confidences` list it accumulates, in iteration order. -/
def processItems : List ItemField → List LineItem × List Rat
  | [] => ([], [])
  | e :: rest =>
    let head := processEntry e
    let tail := processItems rest
    (match head.1 with
     | some it => it :: tail.1
     | none => tail.1,
     head.2 ++ tail.2)

/-- Python truthiness of `item_doc_field.value_object` (`hasattr` and
non-`None` and non-empty). -/
def objectTruthy : Option (List (String × DocumentField)) → Bool
  | none => false
  | some l => !l.isEmpty

/-- Whether at least one of the four known sub-field names is present in an
entry's object payload. -/
def hasKnownSubField (obj : List (String × DocumentField)) : Bool :=
  (obj.lookup "Description").isSome || (obj.lookup "Quantity").isSome ||
    (obj.lookup "TotalPrice").isSome || (obj.lookup "UnitPrice").isSome

/-- The dict `full_receipt_data`.  Outer `Option` = key present. -/
structure ReceiptData where
  fechaTransaccion : Option (Option Scalar) := none
  montoTotal : Option (Option Scalar) := none
  items : Option (List LineItem) := none
  itemsConfidenceScore : Option (Option Rat) := none
  nombreComercio : Option (Option Scalar) := none
  rifComercio : Option (Option Scalar) := none
  facturaNumero : Option (Option Scalar) := none
  nombreRazon : Option (Option Scalar) := none
  rifCI : Option (Option Scalar) := none
  montoExento : Option (Option Scalar) := none
  montoIVA : Option (Option Scalar) := none
  baseImponible : Option (Option Scalar) := none
deriving DecidableEq, Repr

/-- The handler-level mutable state the document loop writes:
`fecha_transaccion`, `monto_total`, `extracted_items`, `item_confidences`
and `full_receipt_data`. -/
structure NormState where
  fecha_transaccion : Option Scalar := none
  monto_total : Option Scalar := none
  extracted_items : List LineItem := []
  item_confidences : List Rat := []
  data : ReceiptData := {}
deriving DecidableEq, Repr

/-- Read one optional merchant/tax field: `if "Name" in doc.fields:
full_receipt_data[key] = get_field_value(doc.fields["Name"])`. -/
def optField (doc : Document) (name : String) : Option (Option Scalar) :=
  match doc.fields.lookup name with
  | some f => some (get_field_value (some f.toDocumentField))
  | none => none

/-- The body of the `for doc in receipt_result.documents:` loop (lines
181–256), which runs on a single document. -/
def processDoc (doc : Document) : NormState :=
  let fecha := optField doc "FechaTransaccion"
  let monto := optField doc "MontoTotal"
  let itemsPart : Option (List LineItem) × List Rat :=
    match doc.fields.lookup "Items" with
    | some items_field =>
      match items_field.value_array with
      | some arr =>
        if arr.isEmpty then (none, [])
        else
          let p := processItems arr
          (some p.1, p.2)
      | none => (none, [])
    | none => (none, [])
  { fecha_transaccion := fecha.getD none
    monto_total := monto.getD none
    extracted_items := (itemsPart.1).getD []
    item_confidences := itemsPart.2
    data :=
      { fechaTransaccion := fecha
        montoTotal := monto
        items := itemsPart.1
        nombreComercio := optField doc "NombreComercio"
        rifComercio := optField doc "RIF-comercio"
        facturaNumero := optField doc "FacturaNumero"
        nombreRazon := optField doc "NombreRazon"
        rifCI := optField doc "RIF-CI"
        montoExento := optField doc "MontoExento"
        montoIVA := optField doc "MontoIVA"
        baseImponible := optField doc "BaseImponible" } }

/-- The `if receipt_result.documents: for doc in ...: ... break` shape:
the loop body ends in an unconditional `break`, so only the head document is
ever processed and the remaining documents are never visited. -/
def docsLoop : List Document → NormState
  | [] => {}
  | doc :: _ => processDoc doc

/-- Round-half-to-even on rationals (Python 3 `round` on an exact value). -/
def roundHalfEven (q : Rat) : Int :=
  let n := q.floor
  if q - n < 1/2 then n
  else if 1/2 < q - n then n + 1
  else if n % 2 = 0 then n else n + 1

/-- `round(x, 4)` idealized over exact rationals. -/
def round4 (q : Rat) : Rat := (roundHalfEven (q * 10000) : Rat) / 10000

/-- Lines 262–268: the aggregated `itemsConfidenceScore` value written into
`full_receipt_data` (always written; `None` when no confidences were
collected). -/
def confidenceScore (item_confidences : List Rat) : Option Rat :=
  if item_confidences.isEmpty then none
  else some (round4 (item_confidences.sum / (item_confidences.length : Rat)))

/-- Lines 178–268: run the document loop, then write
`itemsConfidenceScore` into `full_receipt_data`. -/
def buildReceiptData (docs : List Document) : NormState :=
  let st := docsLoop docs
  { st with data := { st.data with
      itemsConfidenceScore := some (confidenceScore st.item_confidences) } }

/-- Environment variables read by the module (absent = `os.environ.get`
returns `None`). -/
structure Env where
  mysql_host : Option String := none
  mysql_user : Option String := none
  mysql_password : Option String := none
  mysql_database : Option String := none
  db_ssl_ca_path : Option String := none
  di_endpoint : Option String := none
  di_key : Option String := none
  cosmos_endpoint : Option String := none
  cosmos_key : Option String := none
  cosmos_database_name : Option String := none
  cosmos_container_name : Option String := none
deriving DecidableEq, Repr

/-- `all([mysql_host, mysql_user, mysql_password, mysql_database])`. -/
def Env.mysqlConfigured (env : Env) : Bool :=
  env.mysql_host.isSome && env.mysql_user.isSome &&
    env.mysql_password.isSome && env.mysql_database.isSome

/-- `all([doc_int_endpoint, doc_int_key])`. -/
def Env.diConfigured (env : Env) : Bool :=
  env.di_endpoint.isSome && env.di_key.isSome

/-- `all([cosmos_endpoint, cosmos_key, cosmos_database_name,
cosmos_container_name])`. -/
def Env.cosmosConfigured (env : Env) : Bool :=
  env.cosmos_endpoint.isSome && env.cosmos_key.isSome &&
    env.cosmos_database_name.isSome && env.cosmos_container_name.isSome

/-- What the MySQL server would do for this invocation. -/
inductive MySQLOutcome where
  /-- `pymysql.connect` raises `pymysql.MySQLError`. -/
  | connectFail
  /-- connect succeeds; `cursor.execute`/`fetchone` raises `pymysql.MySQLError`. -/
  | queryFail
  /-- query succeeds; `fetchone()` returns `None`. -/
  | noRow
  /-- query succeeds; `fetchone()` returns a row whose first column is `u`. -/
  | row (u : String)
deriving DecidableEq, Repr

/-- Exceptions that can escape `get_username_from_db`.  `pymysql.MySQLError`
is caught inside; what escapes is the `UnboundLocalError` raised by the
`finally` block when it evaluates `cnx` although `pymysql.connect` was never
reached or raised, so `cnx` was never assigned. -/
inductive PyError where
  | unboundLocalCnx
deriving DecidableEq, Repr

/-- How a call to `get_username_from_db` terminates. -/
inductive LookupResult where
  | ret (username : Option String)
  | raises (e : PyError)
deriving DecidableEq, Repr

/-- Resource/call bookkeeping for one `get_username_from_db` call. -/
structure LookupTrace where
  /-- `pymysql.connect(...)` was executed. -/
  connectAttempted : Bool
  /-- `pymysql.connect(...)` returned a live connection. -/
  connectionOpened : Bool
  /-- `cnx.close()` ran. -/
  connectionClosed : Bool
  result : LookupResult
deriving DecidableEq, Repr

/-- `get_username_from_db(user_id)` (lines 21–77).  Paths:
* missing MySQL env vars: the `try` body does `return None`, but the
  `finally` block evaluates `if cnx is not None:` with `cnx` unassigned,
  raising `UnboundLocalError` which replaces the return;
* `pymysql.connect` raises: the `except pymysql.MySQLError` arm does
  `return None`, but the `finally` block again reads the unassigned `cnx`
  and raises;
* query/fetch raises: caught, connection closed in `finally`, returns `None`;
* zero rows: returns `None`;  a row: returns its first column. -/
def get_username_from_db (env : Env) (db : MySQLOutcome) : LookupTrace :=
  if !env.mysqlConfigured then
    { connectAttempted := false, connectionOpened := false,
      connectionClosed := false, result := .raises .unboundLocalCnx }
  else
    match db with
    | .connectFail =>
      { connectAttempted := true, connectionOpened := false,
        connectionClosed := false, result := .raises .unboundLocalCnx }
    | .queryFail =>
      { connectAttempted := true, connectionOpened := true,
        connectionClosed := true, result := .ret none }
    | .noRow =>
      { connectAttempted := true, connectionOpened := true,
        connectionClosed := true, result := .ret none }
    | .row u =>
      { connectAttempted := true, connectionOpened := true,
        connectionClosed := true, result := .ret (some u) }

/-- What the Document Intelligence call would do for this invocation. -/
inductive AnalysisOutcome where
  /-- client construction / blob read / analysis raises (the `except` at line 271). -/
  | failure
  /-- `poller.result()` with its list of documents. -/
  | result (documents : List Document)
deriving DecidableEq, Repr

/-- What the Cosmos DB `create_item` call would do for this invocation. -/
inductive CosmosOutcome where
  | ok
  | failure
deriving DecidableEq, Repr

/-- One invocation's inputs: environment, blob metadata, and the behaviour
of the three external services. -/
structure World where
  env : Env
  blobName : String
  blobUri : String
  mysql : MySQLOutcome
  analysis : AnalysisOutcome
  cosmos : CosmosOutcome
  /-- `str(uuid.uuid4())`. -/
  newId : String
deriving DecidableEq, Repr

/-- The document handed to `container.create_item` (lines 297–305). -/
structure CosmosDocument where
  id : String
  userId : String
  id_usuario : String
  username : Option String
  directorio : String
  blobURL : String
  data : ReceiptData
deriving DecidableEq, Repr

/-- Observable outcome of one handler invocation: which external calls were
attempted, what was persisted, and whether an exception escaped the handler. -/
structure Trace where
  mysqlConnectAttempted : Bool
  analysisAttempted : Bool
  cosmosAttempted : Bool
  saved : Option CosmosDocument
  raised : Bool
deriving DecidableEq, Repr

/-- A trace in which nothing external happened and nothing escaped. -/
def noCallTrace : Trace :=
  { mysqlConnectAttempted := false, analysisAttempted := false,
    cosmosAttempted := false, saved := none, raised := false }

/-- Python `s.endswith(suffix)`. -/
def pyEndsWith (s suffix : String) : Bool :=
  suffix.data.isSuffixOf s.data

/-- Python `str.split(sep)` on a list of characters: splits at every
occurrence of `sep`, keeping empty groups (so the result has one more group
than there are separators). -/
def splitChar (sep : Char) : List Char → List (List Char)
  | [] => [[]]
  | c :: rest =>
    let r := splitChar sep rest
    if c = sep then [] :: r
    else
      match r with
      | [] => [[c]]
      | g :: gs => (c :: g) :: gs

/-- Python `s.split('/')`. -/
def pySplit (s : String) (sep : Char) : List String :=
  (splitChar sep s.data).map String.mk

/-- Lines 123–129: `myblob.name.split('/')`; requires more than 3 segments,
then takes `parts[1]` as the user id and `parts[2]` as the subdirectory. -/
def parsePath (name : String) : Option (String × String) :=
  match pySplit name '/' with
  | _ :: user_id :: random_subdirectory :: _ :: _ => some (user_id, random_subdirectory)
  | _ => none

/-- `event_grid_blob_trigger(myblob)` (lines 112–316), as a function from
one invocation's inputs to its observable trace. -/
def event_grid_blob_trigger (w : World) : Trace :=
  if pyEndsWith w.blobName "/.placeholder" then
    noCallTrace
  else
    match parsePath w.blobName with
    | none => noCallTrace
    | some (user_id, random_subdirectory) =>
      let lk := get_username_from_db w.env w.mysql
      match lk.result with
      | .raises _ =>
        -- the call at line 139 is outside any try: the exception escapes
        { noCallTrace with
            mysqlConnectAttempted := lk.connectAttempted, raised := true }
      | .ret username =>
        if !w.env.diConfigured then
          { noCallTrace with mysqlConnectAttempted := lk.connectAttempted }
        else
          match w.analysis with
          | .failure =>
            { noCallTrace with
                mysqlConnectAttempted := lk.connectAttempted,
                analysisAttempted := true }
          | .result docs =>
            let st := buildReceiptData docs
            if st.fecha_transaccion.isNone || st.monto_total.isNone then
              { noCallTrace with
                  mysqlConnectAttempted := lk.connectAttempted,
                  analysisAttempted := true }
            else if !w.env.cosmosConfigured then
              { noCallTrace with
                  mysqlConnectAttempted := lk.connectAttempted,
                  analysisAttempted := true }
            else
              let final_cosmos_document : CosmosDocument :=
                { id := w.newId, userId := user_id, id_usuario := user_id,
                  username := username, directorio := random_subdirectory,
                  blobURL := w.blobUri, data := st.data }
              match w.cosmos with
              | .ok =>
                { mysqlConnectAttempted := lk.connectAttempted,
                  analysisAttempted := true, cosmosAttempted := true,
                  saved := some final_cosmos_document, raised := false }
              | .failure =>
                { mysqlConnectAttempted := lk.connectAttempted,
                  analysisAttempted := true, cosmosAttempted := true,
                  saved := none, raised := false }

/-! Concrete sample inputs used by witnesses. -/

/-- A fully-populated environment. -/
def fullEnv : Env :=
  { mysql_host := some "h", mysql_user := some "u", mysql_password := some "p",
    mysql_database := some "d", db_ssl_ca_path := none,
    di_endpoint := some "e", di_key := some "k",
    cosmos_endpoint := some "ce", cosmos_key := some "ck",
    cosmos_database_name := some "cd", cosmos_container_name := some "cc" }

/-- An object payload with all four known sub-fields, their confidences
0.9, 0.8, 0.95, 0.99. -/
def sampleObj : List (String × DocumentField) :=
  [("Description", { value_string := some "Cafe", confidence := some (9/10) }),
   ("Quantity", { value_number := some 2, confidence := some (8/10) }),
   ("TotalPrice", { value_number := some 5, confidence := some (95/100) }),
   ("UnitPrice", { value_number := some (5/2), confidence := some (99/100) })]

/-- An Items entry whose object payload is `sampleObj`. -/
def sampleItemEntry : ItemField := { value_object := some sampleObj }

/-- An Items entry lacking an object payload. -/
def sampleSkipEntry : ItemField := { value_object := none }

/-- An Items entry with one known sub-field and no confidence. -/
def sampleEntry3 : ItemField :=
  { value_object := some [("Description", { value_string := some "Pan" })] }

/-- A three-entry Items array whose middle entry lacks an object payload. -/
def itemsWitnessList : List ItemField :=
  [sampleItemEntry, sampleSkipEntry, sampleEntry3]

/-- A document with the two required fields and one item. -/
def sampleDoc : Document :=
  { fields :=
      [("FechaTransaccion", { value_date := some ⟨2024, 5, 1⟩ }),
       ("MontoTotal", { value_number := some (85/2) }),
       ("Items", { value_array := some [sampleItemEntry] })] }

/-- A happy-path invocation. -/
def happyWorld : World :=
  { env := fullEnv, blobName := "container/u123/abcXY/receipt.png",
    blobUri := "https://example/receipt.png", mysql := .row "alice",
    analysis := .result [sampleDoc], cosmos := .ok, newId := "id-1" }

/-- The document the happy-path invocation persists. -/
def happyDoc : CosmosDocument :=
  { id := "id-1", userId := "u123", id_usuario := "u123",
    username := some "alice", directorio := "abcXY",
    blobURL := "https://example/receipt.png",
    data := (buildReceiptData [sampleDoc]).data }

/-- The happy-path invocation with an empty analysis result. -/
def wZeroDocs : World := { happyWorld with analysis := .result [] }

/-- The happy-path invocation with the Document Intelligence endpoint unset. -/
def wNoDI : World := { happyWorld with env := { fullEnv with di_endpoint := none } }

/-- The happy-path invocation with the Cosmos endpoint unset. -/
def wNoCosmos : World :=
  { happyWorld with env := { fullEnv with cosmos_endpoint := none } }

/-- The happy-path invocation with the MySQL host variable unset. -/
def wMySQLCfgMissing : World :=
  { happyWorld with env := { fullEnv with mysql_host := none } }

/-- The happy-path invocation, but `pymysql.connect` raises. -/
def wConnectFail : World := { happyWorld with mysql := .connectFail }

/-- The happy-path invocation, but the query raises after a good connect. -/
def wQueryFail : World := { happyWorld with mysql := .queryFail }

/-- Written after the words of the spec (§4.1): resolution order with the
first populated variant winning — string, number, date (as `YYYY-MM-DD`),
time (as `HH:MM:SS`), currency amount, generic fallback; `none` for a `none`
field or when no variant is populated. -/
def specFieldValueOrder : Option DocumentField → Option Scalar
  | none => none
  | some f =>
    (f.value_string.map .str) <|>
    (f.value_number.map .num) <|>
    (f.value_date.map fun d => .str (formatDate d)) <|>
    (f.value_time.map fun t => .str (formatTime t)) <|>
    ((f.value_currency.bind CurrencyV.amount).map .num) <|>
    f.value

/-! Theorems for the claims. -/

/-- C3: `get_field_value` returns the first populated variant in the order
string-value, number-value, date-value (formatted `YYYY-MM-DD`), time-value
(formatted `HH:MM:SS`), currency-amount, then generic fallback value, and
returns null when the field is null or no variant is populated — i.e. it
agrees with the spec-ordered resolution function on every field. -/
theorem get_field_value_resolution_order :
    ∀ f : Option DocumentField, get_field_value f = specFieldValueOrder f := by
  rintro (_ | ⟨vs, vn, vd, vt, vc, v, conf⟩)
  · rfl
  · rcases vs with _ | s <;> rcases vn with _ | n <;> rcases vd with _ | d <;>
      rcases vt with _ | t <;> rcases vc with _ | ⟨_ | a⟩ <;> rfl

/-- C6: only the first document of the analysis result populates the
normalized record; the fields of every later document contribute nothing
(the loop body ends in `break`). -/
theorem only_first_document_used :
    ∀ (d : Document) (ds ds' : List Document),
      buildReceiptData (d :: ds) = buildReceiptData (d :: ds') :=
  fun _ _ _ => rfl

/-- C9: a blob whose path ends in `/.placeholder` makes the handler exit
immediately: no relational connect, no analysis call, no persistence call,
nothing saved, nothing raised. -/
theorem placeholder_blob_is_ignored :
    ∀ w : World, pyEndsWith w.blobName "/.placeholder" = true →
      (event_grid_blob_trigger w).mysqlConnectAttempted = false ∧
      (event_grid_blob_trigger w).analysisAttempted = false ∧
      (event_grid_blob_trigger w).cosmosAttempted = false ∧
      (event_grid_blob_trigger w).saved = none ∧
      (event_grid_blob_trigger w).raised = false := by
  intro w h
  unfold event_grid_blob_trigger
  simp [h, noCallTrace]

/-- Witness for C9 at the spec's example path. -/
theorem placeholder_blob_is_ignored_witness :
    (pyEndsWith "container/u123/abcXY/.placeholder" "/.placeholder" = true) ∧
    (event_grid_blob_trigger
        { happyWorld with blobName := "container/u123/abcXY/.placeholder" }).saved = none := by
  have h := placeholder_blob_is_ignored
    { happyWorld with blobName := "container/u123/abcXY/.placeholder" } (by decide)
  exact ⟨by decide, h.2.2.2.1⟩

/-- C1 (refuted — the code contradicts the intended recovery): a lookup
failure is not always non-fatal.  A query failure after a successful connect
is recovered (the pipeline continues with a null username and still saves),
but with missing MySQL configuration, or with `pymysql.connect` raising, the
`finally` block of `get_username_from_db` evaluates the never-assigned local
`cnx` and raises `UnboundLocalError`; the exception escapes the handler
(line 139 is outside any `try`), so analysis, normalization and persistence
never run. -/
theorem lookup_failure_not_always_nonfatal :
    (get_username_from_db wMySQLCfgMissing.env wMySQLCfgMissing.mysql).result =
        .raises .unboundLocalCnx ∧
    (event_grid_blob_trigger wMySQLCfgMissing).raised = true ∧
    (event_grid_blob_trigger wMySQLCfgMissing).analysisAttempted = false ∧
    (event_grid_blob_trigger wMySQLCfgMissing).saved = none ∧
    (get_username_from_db fullEnv .connectFail).result = .raises .unboundLocalCnx ∧
    (event_grid_blob_trigger wConnectFail).raised = true ∧
    (event_grid_blob_trigger wConnectFail).saved = none ∧
    (get_username_from_db fullEnv .queryFail).result = .ret none ∧
    (event_grid_blob_trigger wQueryFail).raised = false ∧
    (event_grid_blob_trigger wQueryFail).saved.isSome = true := by
  decide

/-- C2 (refuted in part — code bug in the release path): whenever a
connection was opened it is indeed closed before `get_username_from_db`
returns, but the release code itself can raise: when `pymysql.connect` was
never executed (missing env vars) or raised, the `finally` block reads the
unassigned local `cnx` and raises `UnboundLocalError` instead of returning. -/
theorem connection_release_on_exception :
    (∀ (env : Env) (db : MySQLOutcome),
        (get_username_from_db env db).connectionOpened = true →
        (get_username_from_db env db).connectionClosed = true) ∧
    (get_username_from_db { fullEnv with mysql_host := none } .noRow).result =
        .raises .unboundLocalCnx ∧
    (get_username_from_db fullEnv .connectFail).connectionOpened = false ∧
    (get_username_from_db fullEnv .connectFail).result = .raises .unboundLocalCnx ∧
    (get_username_from_db fullEnv .queryFail).connectionClosed = true := by
  refine ⟨?_, by decide, by decide, by decide, by decide⟩
  intro env db h
  unfold get_username_from_db at h ⊢
  cases hc : env.mysqlConfigured <;> cases db <;> simp_all

/-- Witness for the universally quantified part of the C2 theorem. -/
theorem connection_release_on_exception_witness :
    (get_username_from_db fullEnv .noRow).connectionOpened = true ∧
    (get_username_from_db fullEnv .noRow).connectionClosed = true :=
  ⟨by decide, connection_release_on_exception.1 fullEnv .noRow (by decide)⟩

/-- C4: the stored `itemsConfidenceScore` is the arithmetic mean of the
collected sub-field confidences rounded (half-to-even) to 4 decimal places
when at least one confidence was collected, and null when none was; on the
confidences 0.9, 0.8, 0.95, 0.99 it is 0.91. -/
theorem itemsConfidenceScore_is_rounded_mean :
    ∀ docs : List Document,
      ((docsLoop docs).item_confidences ≠ [] →
        (buildReceiptData docs).data.itemsConfidenceScore =
          some (some (round4 ((docsLoop docs).item_confidences.sum /
            ((docsLoop docs).item_confidences.length : Rat)))))
      ∧ ((docsLoop docs).item_confidences = [] →
          (buildReceiptData docs).data.itemsConfidenceScore = some none)
      ∧ confidenceScore [9/10, 8/10, 95/100, 99/100] = some (91/100) := by
  intro docs
  refine ⟨fun h => ?_, fun h => ?_, by decide⟩
  · simp [buildReceiptData, confidenceScore, List.isEmpty_iff, h]
  · simp [buildReceiptData, confidenceScore, h]

/-- Witness for C4 on a document whose items carry confidences
0.9, 0.8, 0.95, 0.99. -/
theorem itemsConfidenceScore_is_rounded_mean_witness :
    (docsLoop [sampleDoc]).item_confidences ≠ [] ∧
    (buildReceiptData [sampleDoc]).data.itemsConfidenceScore = some (some (91/100)) := by
  have h := (itemsConfidenceScore_is_rounded_mean [sampleDoc]).1 (by decide)
  exact ⟨by decide, h.trans (by decide)⟩

/-- C5: nothing is persisted unless both `fecha_transaccion` and
`monto_total` were extracted non-null, and an analysis result with zero
documents never reaches the persistence call. -/
theorem no_record_persisted_without_required_fields :
    ∀ w : World,
      (∀ doc : CosmosDocument, (event_grid_blob_trigger w).saved = some doc →
        ∃ docs, w.analysis = .result docs ∧
          (buildReceiptData docs).fecha_transaccion.isSome = true ∧
          (buildReceiptData docs).monto_total.isSome = true)
      ∧ (w.analysis = .result [] →
          (event_grid_blob_trigger w).saved = none ∧
          (event_grid_blob_trigger w).cosmosAttempted = false) := by
  intro w
  constructor
  · intro doc h
    unfold event_grid_blob_trigger at h
    by_cases hpl : pyEndsWith w.blobName "/.placeholder" = true
    · rw [if_pos hpl] at h; simp [noCallTrace] at h
    · rw [if_neg hpl] at h
      rcases hp : parsePath w.blobName with _ | ⟨uid, sd⟩ <;> simp only [hp] at h
      · simp [noCallTrace] at h
      · rcases hr : (get_username_from_db w.env w.mysql).result with username | e <;>
          simp only [hr] at h
        · by_cases hdi : (!w.env.diConfigured) = true
          · rw [if_pos hdi] at h; simp [noCallTrace] at h
          · rw [if_neg hdi] at h
            rcases han : w.analysis with _ | docs <;> simp only [han] at h
            · simp [noCallTrace] at h
            · by_cases hval : ((buildReceiptData docs).fecha_transaccion.isNone ||
                  (buildReceiptData docs).monto_total.isNone) = true
              · rw [if_pos hval] at h; simp [noCallTrace] at h
              · rw [if_neg hval] at h
                by_cases hcc : (!w.env.cosmosConfigured) = true
                · rw [if_pos hcc] at h; simp [noCallTrace] at h
                · rw [if_neg hcc] at h
                  simp only [Bool.or_eq_true, Option.isNone_iff_eq_none] at hval
                  push_neg at hval
                  rcases hco : w.cosmos <;> simp only [hco] at h
                  · exact ⟨docs, rfl, Option.ne_none_iff_isSome.mp hval.1,
                      Option.ne_none_iff_isSome.mp hval.2⟩
                  · simp at h
        · simp [noCallTrace] at h
  · intro han
    unfold event_grid_blob_trigger
    by_cases hpl : pyEndsWith w.blobName "/.placeholder" = true
    · rw [if_pos hpl]; exact ⟨rfl, rfl⟩
    · rw [if_neg hpl]
      rcases hp : parsePath w.blobName with _ | ⟨uid, sd⟩ <;> simp only [hp]
      · exact ⟨rfl, rfl⟩
      · rcases hr : (get_username_from_db w.env w.mysql).result with username | e <;>
          simp only [hr]
        · by_cases hdi : (!w.env.diConfigured) = true
          · rw [if_pos hdi]; exact ⟨rfl, rfl⟩
          · rw [if_neg hdi]
            rw [han]; dsimp only
            rw [if_pos (by decide :
              ((buildReceiptData ([] : List Document)).fecha_transaccion.isNone ||
                (buildReceiptData ([] : List Document)).monto_total.isNone) = true)]
            exact ⟨rfl, rfl⟩
        · exact ⟨rfl, rfl⟩

/-- Witness for C5: the empty-result invocation saves nothing, and the
happy-path invocation that does save extracted both required fields. -/
theorem no_record_persisted_without_required_fields_witness :
    ((event_grid_blob_trigger wZeroDocs).saved = none ∧
      (event_grid_blob_trigger wZeroDocs).cosmosAttempted = false) ∧
    ∃ docs, happyWorld.analysis = .result docs ∧
      (buildReceiptData docs).fecha_transaccion.isSome = true ∧
      (buildReceiptData docs).monto_total.isSome = true := by
  refine ⟨(no_record_persisted_without_required_fields wZeroDocs).2 rfl, ?_⟩
  exact (no_record_persisted_without_required_fields happyWorld).1 happyDoc (by decide)

/-- C7 (counterexample): with every variable set except the document-store
endpoint, the invocation still performs the relational lookup and the
document-analysis call before aborting — so a missing required
configuration value does not abort before any external call is attempted. -/
theorem missing_config_after_external_calls :
    wNoCosmos.env.cosmos_endpoint = none ∧
    (event_grid_blob_trigger wNoCosmos).mysqlConnectAttempted = true ∧
    (event_grid_blob_trigger wNoCosmos).analysisAttempted = true ∧
    (event_grid_blob_trigger wNoCosmos).cosmosAttempted = false ∧
    (event_grid_blob_trigger wNoCosmos).saved = none := by
  decide

/-- C7 (amended): each configuration group is validated before the external
call that consumes it — missing relational configuration means the
relational connect is never executed, missing document-analysis
configuration means the analysis call is never made (and nothing is saved),
and missing document-store configuration means the persistence call is
never made and nothing is saved; earlier calls of the pipeline may already
have been attempted. -/
theorem config_checked_before_dependent_call :
    ∀ w : World,
      (w.env.mysqlConfigured = false →
        (event_grid_blob_trigger w).mysqlConnectAttempted = false)
      ∧ (w.env.diConfigured = false →
          (event_grid_blob_trigger w).analysisAttempted = false ∧
          (event_grid_blob_trigger w).saved = none)
      ∧ (w.env.cosmosConfigured = false →
          (event_grid_blob_trigger w).cosmosAttempted = false ∧
          (event_grid_blob_trigger w).saved = none) := by
  intro w
  refine ⟨fun hm => ?_, fun hdi => ?_, fun hcc => ?_⟩
  · have hlk : get_username_from_db w.env w.mysql =
        { connectAttempted := false, connectionOpened := false,
          connectionClosed := false, result := .raises .unboundLocalCnx } := by
      unfold get_username_from_db
      simp [hm]
    unfold event_grid_blob_trigger
    by_cases hpl : pyEndsWith w.blobName "/.placeholder" = true
    · rw [if_pos hpl]; rfl
    · rw [if_neg hpl]
      rcases hp : parsePath w.blobName with _ | ⟨uid, sd⟩ <;> simp only [hp]
      · rfl
      · rw [hlk]
  · unfold event_grid_blob_trigger
    by_cases hpl : pyEndsWith w.blobName "/.placeholder" = true
    · rw [if_pos hpl]; exact ⟨rfl, rfl⟩
    · rw [if_neg hpl]
      rcases hp : parsePath w.blobName with _ | ⟨uid, sd⟩ <;> simp only [hp]
      · exact ⟨rfl, rfl⟩
      · rcases hr : (get_username_from_db w.env w.mysql).result with username | e <;>
          simp only [hr]
        · rw [if_pos (by simp [hdi] : (!w.env.diConfigured) = true)]
          exact ⟨rfl, rfl⟩
        · exact ⟨rfl, rfl⟩
  · unfold event_grid_blob_trigger
    by_cases hpl : pyEndsWith w.blobName "/.placeholder" = true
    · rw [if_pos hpl]; exact ⟨rfl, rfl⟩
    · rw [if_neg hpl]
      rcases hp : parsePath w.blobName with _ | ⟨uid, sd⟩ <;> simp only [hp]
      · exact ⟨rfl, rfl⟩
      · rcases hr : (get_username_from_db w.env w.mysql).result with username | e <;>
          simp only [hr]
        · by_cases hdi : (!w.env.diConfigured) = true
          · rw [if_pos hdi]; exact ⟨rfl, rfl⟩
          · rw [if_neg hdi]
            rcases han : w.analysis with _ | docs <;> simp only [han]
            · exact ⟨rfl, rfl⟩
            · by_cases hval : ((buildReceiptData docs).fecha_transaccion.isNone ||
                  (buildReceiptData docs).monto_total.isNone) = true
              · rw [if_pos hval]; exact ⟨rfl, rfl⟩
              · rw [if_neg hval]
                rw [if_pos (by simp [hcc] : (!w.env.cosmosConfigured) = true)]
                exact ⟨rfl, rfl⟩
        · exact ⟨rfl, rfl⟩

/-- Witness for the amended C7 theorem, at the invocation missing the
analysis endpoint. -/
theorem config_checked_before_dependent_call_witness :
    wNoDI.env.diConfigured = false ∧
    (event_grid_blob_trigger wNoDI).analysisAttempted = false ∧
    (event_grid_blob_trigger wNoDI).saved = none := by
  have h := (config_checked_before_dependent_call wNoDI).2.1 (by decide)
  exact ⟨by decide, h.1, h.2⟩

/-- An entry whose object payload is missing or empty contributes nothing. -/
theorem processEntry_skip (e : ItemField)
    (h : objectTruthy e.value_object = false) : processEntry e = (none, []) := by
  obtain ⟨vo⟩ := e
  rcases vo with _ | obj
  · rfl
  · simp only [objectTruthy, Bool.not_eq_false'] at h
    simp [processEntry, h]

/-- An entry with a non-empty object payload contributes a `LineItem`
exactly when one of the four known sub-field names is present. -/
theorem processEntry_fst_isSome (obj : List (String × DocumentField))
    (hne : obj.isEmpty = false) :
    ((processEntry ⟨some obj⟩).1.isSome) = hasKnownSubField obj := by
  simp only [processEntry, hne]
  rcases hD : obj.lookup "Description" with _ | fD <;>
    rcases hQ : obj.lookup "Quantity" with _ | fQ <;>
      rcases hT : obj.lookup "TotalPrice" with _ | fT <;>
        rcases hU : obj.lookup "UnitPrice" with _ | fU <;>
          simp [subRead, lineItemEmpty, hasKnownSubField, hD, hQ, hT, hU]

/-- C8: an Items entry lacking an object payload (or with an empty one) is
skipped and contributes nothing — neither a `LineItem` nor confidences —
and an entry with a non-empty object payload contributes exactly one
`LineItem` if and only if at least one of the four sub-fields Description,
Quantity, TotalPrice, UnitPrice is present in it. -/
theorem items_entry_line_item_contribution :
    ∀ (e : ItemField) (rest : List ItemField),
      (objectTruthy e.value_object = false →
        processItems (e :: rest) = processItems rest)
      ∧ (∀ obj, e.value_object = some obj → obj.isEmpty = false →
          (((processItems (e :: rest)).1.length =
              (processItems rest).1.length + 1)
            ↔ hasKnownSubField obj = true)
          ∧ (hasKnownSubField obj = false →
              (processItems (e :: rest)).1 = (processItems rest).1)) := by
  intro e rest
  constructor
  · intro h
    have hp := processEntry_skip e h
    simp [processItems, hp]
  · intro obj hobj hne
    obtain ⟨vo⟩ := e
    dsimp only at hobj
    subst hobj
    constructor
    · cases hk : hasKnownSubField obj
      · have h1 : (processEntry ⟨some obj⟩).1 = none := by
          have h2 := processEntry_fst_isSome obj hne
          rw [hk] at h2
          exact Option.not_isSome_iff_eq_none.mp (by simp [h2])
        simp [processItems, h1]
      · have h1 : ∃ it, (processEntry ⟨some obj⟩).1 = some it := by
          have h2 := processEntry_fst_isSome obj hne
          rw [hk] at h2
          exact Option.isSome_iff_exists.mp h2
        obtain ⟨it, h1⟩ := h1
        simp [processItems, h1]
    · intro hk
      have h1 : (processEntry ⟨some obj⟩).1 = none := by
        have h2 := processEntry_fst_isSome obj hne
        rw [hk] at h2
        exact Option.not_isSome_iff_eq_none.mp (by simp [h2])
      simp [processItems, h1]

/-- Witness for C8: on a 3-entry array whose middle entry lacks an object
payload, the middle entry contributes nothing, a populated entry adds
exactly one item, and exactly 2 LineItems come out. -/
theorem items_entry_line_item_contribution_witness :
    (objectTruthy sampleSkipEntry.value_object = false ∧
      processItems [sampleSkipEntry, sampleEntry3] = processItems [sampleEntry3]) ∧
    ((processItems (sampleItemEntry :: [sampleEntry3])).1.length =
      (processItems [sampleEntry3]).1.length + 1) ∧
    (processItems itemsWitnessList).1.length = 2 := by
  refine ⟨⟨by decide,
    (items_entry_line_item_contribution sampleSkipEntry [sampleEntry3]).1 (by decide)⟩,
    ?_, by decide⟩
  exact ((items_entry_line_item_contribution sampleItemEntry [sampleEntry3]).2
    sampleObj rfl (by decide)).1.mpr (by decide)

/-- When the path parser accepts a name, the user id it returns is the
second segment of the split path. -/
theorem parsePath_second_segment :
    ∀ (name uid sd : String), parsePath name = some (uid, sd) →
      (pySplit name '/')[1]? = some uid := by
  intro name uid sd h
  unfold parsePath at h
  rcases hsp : pySplit name '/' with _ | ⟨a, _ | ⟨b, _ | ⟨c, _ | ⟨d, rest⟩⟩⟩⟩ <;>
    rw [hsp] at h
  · simp at h
  · simp at h
  · simp at h
  · simp at h
  · simp only [Option.some.injEq, Prod.mk.injEq] at h
    simp [h.1]

/-- C10: every persisted document carries `id_usuario` equal to `userId`,
which is the second segment of the blob path — the stored schema holds the
user identifier twice. -/
theorem stored_document_duplicates_user_id :
    ∀ (w : World) (doc : CosmosDocument),
      (event_grid_blob_trigger w).saved = some doc →
        doc.id_usuario = doc.userId ∧
        (pySplit w.blobName '/')[1]? = some doc.userId := by
  intro w doc h
  unfold event_grid_blob_trigger at h
  by_cases hpl : pyEndsWith w.blobName "/.placeholder" = true
  · rw [if_pos hpl] at h; simp [noCallTrace] at h
  · rw [if_neg hpl] at h
    rcases hp : parsePath w.blobName with _ | ⟨uid, sd⟩ <;> simp only [hp] at h
    · simp [noCallTrace] at h
    · rcases hr : (get_username_from_db w.env w.mysql).result with username | e <;>
        simp only [hr] at h
      · by_cases hdi : (!w.env.diConfigured) = true
        · rw [if_pos hdi] at h; simp [noCallTrace] at h
        · rw [if_neg hdi] at h
          rcases han : w.analysis with _ | docs <;> simp only [han] at h
          · simp [noCallTrace] at h
          · by_cases hval : ((buildReceiptData docs).fecha_transaccion.isNone ||
                (buildReceiptData docs).monto_total.isNone) = true
            · rw [if_pos hval] at h; simp [noCallTrace] at h
            · rw [if_neg hval] at h
              by_cases hcc : (!w.env.cosmosConfigured) = true
              · rw [if_pos hcc] at h; simp [noCallTrace] at h
              · rw [if_neg hcc] at h
                rcases hco : w.cosmos <;> simp only [hco] at h
                · injection h with h'
                  subst h'
                  exact ⟨rfl, parsePath_second_segment w.blobName uid sd hp⟩
                · simp at h
      · simp [noCallTrace] at h

/-- Witness for C10 at the happy-path invocation. -/
theorem stored_document_duplicates_user_id_witness :
    (event_grid_blob_trigger happyWorld).saved = some happyDoc ∧
    happyDoc.id_usuario = happyDoc.userId ∧
    (pySplit happyWorld.blobName '/')[1]? = some happyDoc.userId := by
  have hs : (event_grid_blob_trigger happyWorld).saved = some happyDoc := by decide
  have h := stored_document_duplicates_user_id happyWorld happyDoc hs
  exact ⟨hs, h.1, h.2⟩

end ReceiptProcessor
